import Mathlib

/-!
Verification of the ClexoMart RFID relay (`Front_end_PHP/relay.py`).

The relay opens a serial device, then loops forever: read a line, decode it
as UTF-8 with `errors='ignore'`, strip it, skip it if empty, uppercase it,
POST it as JSON to a fixed endpoint, classify the response, catch the four
exception classes, and sleep 0.1 s.  We embed the loop body, the exception
handlers, and the `__main__` wrapper as pure Lean functions over oracle
inputs describing what the serial device and the HTTP transport do.
-/

namespace Relay

/-- Python exception values that can arise in `relay.py`, tagged by the
class the `except` clauses discriminate on.  `keyboardInterrupt` and
`systemExit` derive from `BaseException` only, so `except Exception`
does not catch them; every other constructor is an `Exception` subclass. -/
inductive PyExc where
  | reqTimeout                      -- requests.exceptions.Timeout
  | reqConnError                    -- requests.exceptions.ConnectionError
  | serialExc (msg : List Nat)      -- serial.SerialException
  | unicodeDecodeError              -- UnicodeDecodeError from bytes.decode
  | otherExc (msg : List Nat)       -- any other Exception subclass
  | keyboardInterrupt               -- BaseException only (operator Ctrl+C)
  | systemExit                      -- BaseException only
  deriving DecidableEq, Repr

/-- Whether `except Exception` catches this exception: true for every
`Exception` subclass, false for the `BaseException`-only classes. -/
def PyExc.isExceptionClass : PyExc → Bool
  | .keyboardInterrupt => false
  | .systemExit => false
  | _ => true

/-- The two codec error handlers relevant to `bytes.decode`: `strict`
raises `UnicodeDecodeError` on malformed input, `ignore` drops the
malformed bytes and resumes. -/
inductive ErrHandler where
  | strict
  | ignore
  deriving DecidableEq, Repr

/-- Decoder state in the middle of a multi-byte UTF-8 sequence: the
codepoint bits accumulated so far, how many continuation bytes are still
required, and the admissible range for the next byte (narrowed after the
lead bytes 0xE0/0xED/0xF0/0xF4 to reject overlong forms, surrogates and
codepoints above U+10FFFF, exactly as RFC 3629 / CPython's decoder does). -/
structure Utf8Pending where
  acc : Nat
  need : Nat
  lo : Nat
  hi : Nat
  deriving DecidableEq, Repr

/-- Classify one lead byte per the RFC 3629 table: ASCII byte (`inl`),
lead of a 2–4 byte sequence (`inr`, with the constrained range for the
next byte), or invalid as a lead (continuation bytes 0x80–0xBF, the
overlong leads 0xC0–0xC1, and 0xF5–0xFF). -/
def utf8Lead (b : Nat) : Option (Nat ⊕ Utf8Pending) :=
  if b ≤ 0x7F then some (.inl b)
  else if 0xC2 ≤ b ∧ b ≤ 0xDF then some (.inr ⟨b - 0xC0, 1, 0x80, 0xBF⟩)
  else if 0xE0 ≤ b ∧ b ≤ 0xEF then
    some (.inr ⟨b - 0xE0, 2, if b = 0xE0 then 0xA0 else 0x80,
                if b = 0xED then 0x9F else 0xBF⟩)
  else if 0xF0 ≤ b ∧ b ≤ 0xF4 then
    some (.inr ⟨b - 0xF0, 3, if b = 0xF0 then 0x90 else 0x80,
                if b = 0xF4 then 0x8F else 0xBF⟩)
  else none

/-- The UTF-8 decoding loop of `bytes.decode('utf-8', errors=h)` as a byte
state machine: `pend = none` expects a lead byte, `pend = some p` expects a
continuation byte.  On malformed input, `strict` raises (`Except.error`);
`ignore` drops the maximal invalid subpart and resumes at the offending
byte, which is CPython's behaviour (a byte that breaks a pending sequence
is reconsidered as a lead byte; a truncated sequence at end of input is
dropped). -/
def utf8Run (h : ErrHandler) : Option Utf8Pending → List Nat → Except Unit (List Nat)
  | none, [] => .ok []
  | some _, [] =>
    match h with
    | .strict => .error ()
    | .ignore => .ok []
  | none, b :: rest =>
    match utf8Lead b with
    | some (.inl cp) => (utf8Run h none rest).map (cp :: ·)
    | some (.inr p) => utf8Run h (some p) rest
    | none =>
      match h with
      | .strict => .error ()
      | .ignore => utf8Run h none rest
  | some p, b :: rest =>
    if p.lo ≤ b ∧ b ≤ p.hi then
      if p.need = 1 then (utf8Run h none rest).map ((p.acc * 64 + (b - 128)) :: ·)
      else utf8Run h (some ⟨p.acc * 64 + (b - 128), p.need - 1, 0x80, 0xBF⟩) rest
    else
      match h with
      | .strict => .error ()
      | .ignore =>
        -- the offending byte is reconsidered as a lead byte
        match utf8Lead b with
        | some (.inl cp) => (utf8Run h none rest).map (cp :: ·)
        | some (.inr p2) => utf8Run h (some p2) rest
        | none => utf8Run h none rest

/-- `bytes.decode('utf-8', errors=h)` on a byte string, yielding the
codepoint sequence of the resulting `str` (or a decode error). -/
def decodeUtf8 (h : ErrHandler) (bs : List Nat) : Except Unit (List Nat) :=
  utf8Run h none bs

/-- The total value of `bytes.decode('utf-8', errors='ignore')`; the error
branch is dead (theorem `utf8Run_ignore_isOk`). -/
def decodeIgnore (bs : List Nat) : List Nat :=
  match decodeUtf8 .ignore bs with
  | .ok cps => cps
  | .error _ => []

/-- The codepoints Python's `str.strip()` removes: the `str.isspace`
set (ASCII whitespace, the C0 separators 0x1C–0x1F, NEL, and the Unicode
space separators). -/
def pyIsSpace (c : Nat) : Bool :=
  (0x9 ≤ c && c ≤ 0xD) || c = 0x20 || (0x1C ≤ c && c ≤ 0x1F) || c = 0x85 ||
  c = 0xA0 || c = 0x1680 || (0x2000 ≤ c && c ≤ 0x200A) ||
  c = 0x2028 || c = 0x2029 || c = 0x202F || c = 0x205F || c = 0x3000

/-- Python `str.strip()`: remove leading and trailing whitespace. -/
def pyStrip (s : List Nat) : List Nat :=
  ((s.dropWhile pyIsSpace).reverse.dropWhile pyIsSpace).reverse

/-- Python `str.upper()` on the alphabet the relay handles (one-to-one ASCII
case mapping; codepoints outside a–z are returned unchanged). -/
def pyUpper (s : List Nat) : List Nat :=
  s.map fun c => if 0x61 ≤ c ∧ c ≤ 0x7A then c - 0x20 else c

/-- Codepoints of a string literal, for readable concrete inputs. -/
def strCodes (s : String) : List Nat :=
  s.data.map Char.toNat

/-- An HTTP response as surfaced by the `requests` library to the loop
body: `status` is `resp.status_code`, `text` the decoded body
(`resp.text`), `reason` the protocol reason phrase (`resp.reason`), and
`jsonBody` the result of `resp.json()` — `none` when parsing the body as
JSON raises, `some kvs` when it yields a JSON object, modelled as a map
from field name to the rendered value. -/
structure Response where
  status : Nat
  text : List Nat
  reason : List Nat
  jsonBody : Option (List (List Nat × List Nat))
  deriving DecidableEq, Repr

/-- `resp.ok` of the `requests` library: true unless `raise_for_status`
would raise, i.e. unless 400 ≤ status < 600. -/
def Response.ok (r : Response) : Bool :=
  !(decide (400 ≤ r.status) && decide (r.status ≤ 599))

/-- The codepoints of the string `"message"`. -/
def msgKey : List Nat :=
  strCodes "message"

/-- Lines 140–145: try `resp.json()`; if it yields an object containing a
`'message'` field, surface that value; a parse failure is swallowed. -/
def respMessage (r : Response) : Option (List Nat) :=
  match r.jsonBody with
  | some kvs => kvs.lookup msgKey
  | none => none

/-- Line 149: `error_msg = (resp.text[:120] + '…') if resp.text else
resp.reason` (0x2026 is the horizontal-ellipsis marker `'…'`). -/
def errorExcerpt (r : Response) : List Nat :=
  if r.text = [] then r.reason
  else r.text.take 120 ++ [0x2026]

/-- The classified outcome of one loop iteration, per the spec's taxonomy:
`delivered`/`rejected` for received responses, the two network failures,
`serialFailure` for the serial-layer clause, `unknownFailure` for the
catch-all clause, and `idle` for the skipped empty read. -/
inductive Outcome where
  | delivered (uid : List Nat) (serverMsg : Option (List Nat))
  | rejected (uid : List Nat) (status : Nat) (errorMsg : List Nat)
  | networkTimeout
  | networkUnreachable
  | serialFailure (msg : List Nat)
  | unknownFailure (msg : List Nat)
  | idle
  deriving DecidableEq, Repr

/-- Externally visible effects of one loop iteration: an HTTP submission
(`requests.post` called with `json={'uid': uid}`) and the pacing delay
(`time.sleep(0.1)`, recorded in tenths of the time unit). -/
inductive Event where
  | post (uid : List Nat)
  | sleep (tenths : Nat)
  deriving DecidableEq, Repr

/-- How the `try` body of the loop ended: ran to completion, executed
`continue`, or raised. -/
inductive IterControl where
  | normal (o : Outcome)
  | skip
  | raised (e : PyExc)
  deriving DecidableEq, Repr

/-- Lines 112–151, the `try` body of one iteration.  `rd` is what
`ser.readline()` does (bytes returned, or an exception raised); `post` is
what `requests.post` does for a given uid (a response, or an exception).
Returns how the body ended together with the events it performed. -/
def tryBody (rd : Except PyExc (List Nat))
    (post : List Nat → Except PyExc Response) : IterControl × List Event :=
  match rd with
  | .error e => (.raised e, [])
  | .ok bytes =>
    match decodeUtf8 .ignore bytes with
    | .error _ => (.raised .unicodeDecodeError, [])
    | .ok cps =>
      let raw := pyStrip cps
      if raw = [] then (.skip, [])
      else
        let uid := pyUpper raw
        match post uid with
        | .error e => (.raised e, [.post uid])
        | .ok r =>
          if r.ok then (.normal (.delivered uid (respMessage r)), [.post uid])
          else (.normal (.rejected uid r.status (errorExcerpt r)), [.post uid])

/-- Lines 153–166, the `except` chain: `Timeout`, then `ConnectionError`,
then `SerialException`, then `Exception`.  `none` means no clause matches
and the exception propagates out of the loop. -/
def handleExc : PyExc → Option Outcome
  | .reqTimeout => some .networkTimeout
  | .reqConnError => some .networkUnreachable
  | .serialExc m => some (.serialFailure m)
  | .unicodeDecodeError => some (.unknownFailure [])
  | .otherExc m => some (.unknownFailure m)
  | .keyboardInterrupt => none
  | .systemExit => none

/-- Lines 111–169, one full iteration of `while True`: the `try` body, the
`except` chain, then `time.sleep(0.1)`.  `continue` (empty read) jumps to
the next iteration without reaching the sleep; an uncaught exception
propagates (`Except.error`), also without reaching the sleep. -/
def loopIter (rd : Except PyExc (List Nat))
    (post : List Nat → Except PyExc Response) :
    Except PyExc Outcome × List Event :=
  match tryBody rd post with
  | (.normal o, evs) => (.ok o, evs ++ [.sleep 1])
  | (.skip, evs) => (.ok .idle, evs)
  | (.raised e, evs) =>
    match handleExc e with
    | some o => (.ok o, evs ++ [.sleep 1])
    | none => (.error e, evs)

/-- The identifiers submitted over HTTP during a list of events. -/
def postedUids (evs : List Event) : List (List Nat) :=
  evs.filterMap fun e =>
    match e with
    | .post u => some u
    | .sleep _ => none

/-- The oracle inputs for one loop iteration. -/
structure IterInput where
  rd : Except PyExc (List Nat)
  post : List Nat → Except PyExc Response

/-- How a (finite prefix of a) run of `main` ends: returned normally,
ended by a propagating exception, or cut off with the loop still
spinning (the `while True` loop has no normal exit). -/
inductive MainExit where
  | returned
  | raised (e : PyExc)
  | running
  deriving DecidableEq, Repr

/-- Process-level events: acquisition of the serial handle
(`serial.Serial(...)` succeeding), explicit release of the handle
(`ser.close()` or a `with`-block exit — `relay.py` contains no such
construct, so no run ever emits it), and the per-iteration events. -/
inductive ProcEvent where
  | acquireSerial
  | releaseSerial
  | iterEv (e : Event)
  deriving DecidableEq, Repr

/-- The processing loop over a finite script of iteration inputs. -/
def runLoop : List IterInput → MainExit × List ProcEvent
  | [] => (.running, [])
  | i :: is =>
    match loopIter i.rd i.post with
    | (.ok _, evs) =>
      let r := runLoop is
      (r.1, evs.map .iterEv ++ r.2)
    | (.error e, evs) => (.raised e, evs.map .iterEv)

/-- Lines 80–169, `main()`: open the serial device — on any `Exception`
print the cause and remediation hints and `return` (lines 102–108); a
`BaseException`-only exception at init would propagate — then run the
processing loop.  `initResult` is what `serial.Serial(...)` does. -/
def mainRun (initResult : Except PyExc Unit) (script : List IterInput) :
    MainExit × List ProcEvent :=
  match initResult with
  | .error e => if e.isExceptionClass then (.returned, []) else (.raised e, [])
  | .ok _ =>
    let r := runLoop script
    (r.1, .acquireSerial :: r.2)

/-- How the whole process ends: with an exit status, or cut off while the
loop is still spinning. -/
inductive ProcExit where
  | exitCode (n : Nat)
  | stillRunning
  deriving DecidableEq, Repr

/-- Lines 175–188, the `__main__` guard: run `main()`, catch
`KeyboardInterrupt` (goodbye message) and `Exception` (fatal-error
message), then fall off the end of the script — CPython then exits with
status 0.  An uncaught `BaseException`-only exception other than
`KeyboardInterrupt` (only `SystemExit` here, which nothing in `relay.py`
raises) ends the interpreter with a nonzero status, modelled as 1. -/
def scriptRun (initResult : Except PyExc Unit) (script : List IterInput) :
    ProcExit × List ProcEvent :=
  let r := mainRun initResult script
  match r.1 with
  | .returned => (.exitCode 0, r.2)
  | .running => (.stillRunning, r.2)
  | .raised e =>
    if e = .keyboardInterrupt then (.exitCode 0, r.2)
    else if e.isExceptionClass then (.exitCode 0, r.2)
    else (.exitCode 1, r.2)

/-- A transport oracle that always fails with `ConnectionError`, used for
concrete runs. -/
def noResponse : List Nat → Except PyExc Response :=
  fun _ => .error .reqConnError

/-- Whether an outcome is the Rejected classification. -/
def Outcome.isRejected : Outcome → Bool
  | .rejected _ _ _ => true
  | _ => false

/-- The last element of a list with an element appended. -/
theorem getLast?_append_singleton {α : Type} (l : List α) (a : α) :
    (l ++ [a]).getLast? = some a := by
  induction l with
  | nil => rfl
  | cons b bs ih =>
    rw [List.cons_append, List.getLast?_cons]
    simp [ih]

/-- The `ignore` error handler never lets the UTF-8 decoding loop fail,
whatever the byte sequence and whatever state the decoder is in. -/
theorem utf8Run_ignore_isOk (bs : List Nat) :
    ∀ pend, ∃ cps, utf8Run .ignore pend bs = .ok cps := by
  induction bs with
  | nil =>
    intro pend
    cases pend with
    | none => exact ⟨[], rfl⟩
    | some p => exact ⟨[], rfl⟩
  | cons b rest ih =>
    intro pend
    cases pend with
    | none =>
      match hl : utf8Lead b with
      | some (.inl cp) =>
        obtain ⟨cs, hc⟩ := ih none
        exact ⟨cp :: cs, by simp [utf8Run, hl, hc, Except.map]⟩
      | some (.inr p) =>
        obtain ⟨cs, hc⟩ := ih (some p)
        exact ⟨cs, by simp [utf8Run, hl, hc]⟩
      | none =>
        obtain ⟨cs, hc⟩ := ih none
        exact ⟨cs, by simp [utf8Run, hl, hc]⟩
    | some p =>
      by_cases hb : p.lo ≤ b ∧ b ≤ p.hi
      · by_cases hn : p.need = 1
        · obtain ⟨cs, hc⟩ := ih none
          exact ⟨(p.acc * 64 + (b - 128)) :: cs, by simp [utf8Run, hb, hn, hc, Except.map]⟩
        · obtain ⟨cs, hc⟩ := ih (some ⟨p.acc * 64 + (b - 128), p.need - 1, 0x80, 0xBF⟩)
          exact ⟨cs, by simp [utf8Run, hb, hn, hc]⟩
      · match hl : utf8Lead b with
        | some (.inl cp) =>
          obtain ⟨cs, hc⟩ := ih none
          exact ⟨cp :: cs, by simp [utf8Run, hb, hl, hc, Except.map]⟩
        | some (.inr p2) =>
          obtain ⟨cs, hc⟩ := ih (some p2)
          exact ⟨cs, by simp [utf8Run, hb, hl, hc]⟩
        | none =>
          obtain ⟨cs, hc⟩ := ih none
          exact ⟨cs, by simp [utf8Run, hb, hl, hc]⟩

/-- C10: serial bytes are decoded with malformed sequences silently
dropped: decoding with the `ignore` handler succeeds on every byte
sequence (while the `strict` handler can fail, e.g. on a 0xFF byte); the
invalid bytes are removed — not replaced — and a line containing invalid
UTF-8 whose remainder is non-empty after stripping is still normalized
and submitted. -/
theorem decode_ignore_behaviour (bs : List Nat) :
    (∃ cps, decodeUtf8 .ignore bs = .ok cps) ∧
    decodeUtf8 .strict [0xFF, 0x61] = .error () ∧
    decodeUtf8 .ignore [0xFF, 0x61, 0x31, 0x20] = .ok [0x61, 0x31, 0x20] ∧
    postedUids (loopIter (.ok [0xFF, 0x61, 0x31, 0x20]) noResponse).2 = [[0x41, 0x31]] :=
  ⟨utf8Run_ignore_isOk bs none, rfl, rfl, rfl⟩

/-- C1: for every raw line read from the serial connection, the
identifiers submitted over HTTP during that iteration are exactly the
stripped-and-uppercased form of the (permissively decoded) line when that
form is non-empty, and nothing at all when the line strips to empty. -/
theorem submission_normalization (bytes : List Nat)
    (post : List Nat → Except PyExc Response) :
    postedUids (loopIter (.ok bytes) post).2 =
      if pyStrip (decodeIgnore bytes) = [] then []
      else [pyUpper (pyStrip (decodeIgnore bytes))] := by
  obtain ⟨cps, hc⟩ := utf8Run_ignore_isOk bytes none
  have hd : decodeUtf8 .ignore bytes = .ok cps := hc
  have hdi : decodeIgnore bytes = cps := by simp [decodeIgnore, hd]
  rw [hdi]
  by_cases hs : pyStrip cps = []
  · simp [loopIter, tryBody, hd, hs, postedUids]
  · cases hp : post (pyUpper (pyStrip cps)) with
    | error e =>
      cases he : handleExc e <;>
        simp [loopIter, tryBody, hd, hs, hp, he, postedUids]
    | ok r =>
      by_cases hok : r.ok <;>
        simp [loopIter, tryBody, hd, hs, hp, hok, postedUids]

/-- C2 counterexample: `resp.ok` (line 136) is the requests-library
predicate "status not in [400,599]", not "status in [200,299]": a
received 304 Not Modified response — outside [200,299] — is classified
as a success (Delivered), not as Rejected. -/
theorem rejected_outside_2xx_cex :
    (loopIter (.ok [65, 66]) fun _ =>
        .ok (⟨304, [], strCodes "Not Modified", none⟩ : Response)).1 =
      .ok (.delivered [65, 66] none) ∧
    (Outcome.delivered [65, 66] none).isRejected = false ∧
    ¬ (200 ≤ 304 ∧ 304 ≤ 299) :=
  ⟨rfl, rfl, by decide⟩

/-- C2 amended: for every received response whose status lies in
[400,599], the outcome is Rejected, capturing the numeric status and the
body excerpt; a received status outside [400,599] (including 1xx and 3xx)
is treated as success, because line 136 tests the requests-library
predicate `resp.ok`. -/
theorem rejected_on_4xx5xx (bytes : List Nat) (r : Response)
    (hlo : 400 ≤ r.status) (hhi : r.status ≤ 599)
    (hne : pyStrip (decodeIgnore bytes) ≠ []) :
    (loopIter (.ok bytes) fun _ => .ok r).1 =
      .ok (.rejected (pyUpper (pyStrip (decodeIgnore bytes))) r.status
        (errorExcerpt r)) := by
  obtain ⟨cps, hc⟩ := utf8Run_ignore_isOk bytes none
  have hd : decodeUtf8 .ignore bytes = .ok cps := hc
  have hdi : decodeIgnore bytes = cps := by simp [decodeIgnore, hd]
  rw [hdi] at hne ⊢
  have hok : r.ok = false := by
    simp [Response.ok, hlo, hhi]
  simp [loopIter, tryBody, hd, hne, hok]

/-- Witness for the amended C2: the spec's own 422 scenario, body
`"duplicate tag"`. -/
theorem rejected_on_4xx5xx_witness :
    (loopIter (.ok [97, 98]) fun _ =>
        .ok (⟨422, strCodes "duplicate tag", strCodes "Unprocessable Entity",
              none⟩ : Response)).1 =
      .ok (.rejected (pyUpper (pyStrip (decodeIgnore [97, 98]))) 422
        (errorExcerpt ⟨422, strCodes "duplicate tag",
          strCodes "Unprocessable Entity", none⟩)) :=
  rejected_on_4xx5xx [97, 98] _ (by decide) (by decide) (by decide)

/-- C3 counterexample: an empty raw line executes `continue` (line 118),
which jumps past `time.sleep(0.1)` (line 169): the iteration performs no
events at all — no submission, but also no pacing delay before the next
read begins. -/
theorem pacing_delay_cex :
    (loopIter (.ok []) noResponse).2 = [] ∧
    Event.sleep 1 ∉ (loopIter (.ok []) noResponse).2 :=
  ⟨rfl, by decide⟩

/-- C3 amended: the fixed 0.1-time-unit pacing delay is the last event of
every iteration whose body ran to completion or whose exception was
caught — i.e. every iteration producing an outcome other than the
empty-read `idle` — but an empty (or whitespace-only) raw line executes
`continue`, skipping the delay and proceeding directly to the next read. -/
theorem pacing_delay_after_noncontinue (rd : Except PyExc (List Nat))
    (post : List Nat → Except PyExc Response) (o : Outcome)
    (h : (loopIter rd post).1 = .ok o) (ho : o ≠ .idle) :
    (loopIter rd post).2.getLast? = some (.sleep 1) := by
  rcases ht : tryBody rd post with ⟨ctl, evs⟩
  cases ctl with
  | normal o2 =>
    simp [loopIter, ht, getLast?_append_singleton]
  | skip =>
    rw [loopIter] at h
    rw [ht] at h
    simp at h
    exact absurd h.symm ho
  | raised e =>
    cases he : handleExc e with
    | some o2 =>
      simp [loopIter, ht, he, getLast?_append_singleton]
    | none =>
      rw [loopIter] at h
      rw [ht] at h
      simp [he] at h

/-- Witness for the amended C3: a non-empty line whose submission fails
with a connection error still ends its iteration with the pacing delay. -/
theorem pacing_delay_after_noncontinue_witness :
    (loopIter (.ok [97]) noResponse).2.getLast? = some (.sleep 1) :=
  pacing_delay_after_noncontinue (.ok [97]) noResponse .networkUnreachable
    rfl (by decide)

/-- C4 counterexample: line 149 appends the truncation marker to every
non-empty body, not only to bodies longer than 120 characters: the
1-character body `"x"` yields the 2-character excerpt `"x…"`, where the
claim predicts the marker-free `"x"`. -/
theorem excerpt_marker_cex :
    errorExcerpt ⟨500, [120], [], none⟩ = [120, 0x2026] ∧
    [120, 0x2026] ≠ [120] ∧
    (loopIter (.ok [97]) fun _ => .ok (⟨500, [120], [], none⟩ : Response)).1 =
      .ok (.rejected [65] 500 [120, 0x2026]) :=
  ⟨rfl, by decide, rfl⟩

/-- C4 amended: for a Rejected outcome, a non-empty body yields the first
120 characters of the body with the truncation marker appended
unconditionally (hence length at most 121); an empty body falls back to
the protocol reason phrase. -/
theorem error_excerpt_shape (r : Response) :
    (r.text ≠ [] →
      errorExcerpt r = r.text.take 120 ++ [0x2026] ∧
      (errorExcerpt r).length ≤ 121) ∧
    (r.text = [] → errorExcerpt r = r.reason) := by
  constructor
  · intro h
    rw [errorExcerpt, if_neg h]
    refine ⟨rfl, ?_⟩
    simp [List.length_take]
  · intro h
    rw [errorExcerpt, if_pos h]

/-- Witness for the amended C4: the excerpt of the 422 scenario's
non-empty body has the marker appended and length at most 121. -/
theorem error_excerpt_shape_witness :
    errorExcerpt ⟨422, strCodes "duplicate tag", [], none⟩ =
        (strCodes "duplicate tag").take 120 ++ [0x2026] ∧
    (errorExcerpt ⟨422, strCodes "duplicate tag", [], none⟩).length ≤ 121 :=
  (error_excerpt_shape ⟨422, strCodes "duplicate tag", [], none⟩).1 (by decide)

/-- C5: every received response with status in [200,299] is classified
Delivered regardless of body content: the surfaced server message is the
`'message'` field when `resp.json()` yields an object containing one and
nothing otherwise — in particular a body that fails to parse as JSON
(`jsonBody = none`) neither downgrades the outcome nor propagates an
exception. -/
theorem delivered_on_2xx (bytes : List Nat) (r : Response)
    (hlo : 200 ≤ r.status) (hhi : r.status ≤ 299)
    (hne : pyStrip (decodeIgnore bytes) ≠ []) :
    (loopIter (.ok bytes) fun _ => .ok r).1 =
      .ok (.delivered (pyUpper (pyStrip (decodeIgnore bytes)))
        (respMessage r)) ∧
    (r.jsonBody = none → respMessage r = none) ∧
    (∀ kvs, r.jsonBody = some kvs → respMessage r = kvs.lookup msgKey) := by
  obtain ⟨cps, hc⟩ := utf8Run_ignore_isOk bytes none
  have hd : decodeUtf8 .ignore bytes = .ok cps := hc
  have hdi : decodeIgnore bytes = cps := by simp [decodeIgnore, hd]
  rw [hdi] at hne ⊢
  have hok : r.ok = true := by
    have : ¬ (400 ≤ r.status) := by omega
    simp [Response.ok, this]
  refine ⟨by simp [loopIter, tryBody, hd, hne, hok], ?_, ?_⟩
  · intro hj
    simp [respMessage, hj]
  · intro kvs hj
    simp [respMessage, hj]

/-- Witness for C5: the spec's end-to-end scenario — raw line
`" a1b2c3 \r\n"`, a 200 response whose JSON body carries
`message = "ok"` — is Delivered with that message surfaced. -/
theorem delivered_on_2xx_witness :
    (loopIter (.ok (strCodes " a1b2c3 " ++ [13, 10])) fun _ =>
        .ok (⟨200, strCodes "\x7b\x22message\x22: \x22ok\x22\x7d", strCodes "OK",
              some [(msgKey, strCodes "ok")]⟩ : Response)).1 =
      .ok (.delivered
        (pyUpper (pyStrip (decodeIgnore (strCodes " a1b2c3 " ++ [13, 10]))))
        (respMessage ⟨200, strCodes "\x7b\x22message\x22: \x22ok\x22\x7d",
          strCodes "OK", some [(msgKey, strCodes "ok")]⟩)) :=
  (delivered_on_2xx (strCodes " a1b2c3 " ++ [13, 10]) _
    (by decide) (by decide) (by decide)).1

/-- C6: a transport timeout before a response is received is classified
NetworkTimeout and a connection failure NetworkUnreachable, and the two
classifications are distinct from each other and from every other
outcome constructor. -/
theorem transport_failure_classification (bytes : List Nat)
    (hne : pyStrip (decodeIgnore bytes) ≠ []) :
    (loopIter (.ok bytes) fun _ => .error .reqTimeout).1 =
      .ok .networkTimeout ∧
    (loopIter (.ok bytes) fun _ => .error .reqConnError).1 =
      .ok .networkUnreachable ∧
    Outcome.networkTimeout ≠ Outcome.networkUnreachable ∧
    (∀ u m, Outcome.networkTimeout ≠ .delivered u m ∧
            Outcome.networkUnreachable ≠ .delivered u m) ∧
    (∀ u s t, Outcome.networkTimeout ≠ .rejected u s t ∧
              Outcome.networkUnreachable ≠ .rejected u s t) ∧
    (∀ m, Outcome.networkTimeout ≠ .serialFailure m ∧
          Outcome.networkUnreachable ≠ .serialFailure m ∧
          Outcome.networkTimeout ≠ .unknownFailure m ∧
          Outcome.networkUnreachable ≠ .unknownFailure m) ∧
    Outcome.networkTimeout ≠ Outcome.idle ∧
    Outcome.networkUnreachable ≠ Outcome.idle := by
  obtain ⟨cps, hc⟩ := utf8Run_ignore_isOk bytes none
  have hd : decodeUtf8 .ignore bytes = .ok cps := hc
  have hdi : decodeIgnore bytes = cps := by simp [decodeIgnore, hd]
  rw [hdi] at hne
  refine ⟨?_, ?_, by simp, by simp, by simp, by simp, by simp, by simp⟩ <;>
    simp [loopIter, tryBody, hd, hne, handleExc]

/-- Witness for C6: a concrete non-empty line under an injected timeout. -/
theorem transport_failure_classification_witness :
    (loopIter (.ok [97]) fun _ => .error .reqTimeout).1 =
      .ok .networkTimeout :=
  (transport_failure_classification [97] (by decide)).1

/-- C7: the only exceptions that can escape a loop iteration are the
`BaseException`-only classes (the operator interrupt, or an interpreter
`SystemExit` request): every `Exception`-class failure raised during an
iteration — serial, network, decode or unexpected — is caught by the
except chain and the iteration completes with a classified outcome. -/
theorem loop_exception_containment (rd : Except PyExc (List Nat))
    (post : List Nat → Except PyExc Response) (e : PyExc)
    (h : (loopIter rd post).1 = .error e) :
    e.isExceptionClass = false ∧
    (e = .keyboardInterrupt ∨ e = .systemExit) := by
  rcases ht : tryBody rd post with ⟨ctl, evs⟩
  cases ctl with
  | normal o2 =>
    rw [loopIter, ht] at h
    simp at h
  | skip =>
    rw [loopIter, ht] at h
    simp at h
  | raised e2 =>
    cases e2 <;> rw [loopIter, ht] at h <;> simp [handleExc] at h
    · exact h ▸ ⟨rfl, .inl rfl⟩
    · exact h ▸ ⟨rfl, .inr rfl⟩

/-- Witness for C7: the escape of an operator interrupt raised during a
read. -/
theorem loop_exception_containment_witness :
    PyExc.isExceptionClass .keyboardInterrupt = false ∧
    (PyExc.keyboardInterrupt = PyExc.keyboardInterrupt ∨
     PyExc.keyboardInterrupt = PyExc.systemExit) :=
  loop_exception_containment (.error .keyboardInterrupt) noResponse
    .keyboardInterrupt rfl

/-- The processing loop never performs an explicit release of the serial
handle, whatever its inputs. -/
theorem releaseSerial_not_in_runLoop (script : List IterInput) :
    ProcEvent.releaseSerial ∉ (runLoop script).2 := by
  induction script with
  | nil => simp [runLoop]
  | cons i is ih =>
    rcases hl : loopIter i.rd i.post with ⟨res, evs⟩
    cases res with
    | ok o =>
      simp only [runLoop, hl, List.mem_append, List.mem_map]
      rintro (⟨x, _, hx⟩ | hmem)
      · cases hx
      · exact ih hmem
    | error e =>
      simp only [runLoop, hl, List.mem_map]
      rintro ⟨x, _, hx⟩
      cases hx

/-- C8 counterexample: an operator interrupt right after a successful open
ends the process (exit status 0) with a trace that contains the
acquisition of the serial handle and no release: `relay.py` opens the
device with a bare `serial.Serial(...)` (line 98) — no `with` block, no
`try/finally`, no `ser.close()` anywhere — so the handle is not released
on the interrupt exit path. -/
theorem serial_release_cex :
    scriptRun (.ok ()) [⟨.error .keyboardInterrupt, noResponse⟩] =
      (.exitCode 0, [.acquireSerial]) ∧
    ProcEvent.acquireSerial ∈ [ProcEvent.acquireSerial] ∧
    ProcEvent.releaseSerial ∉ [ProcEvent.acquireSerial] :=
  ⟨rfl, by decide, by decide⟩

/-- C8 amended: no run of the process ever performs an explicit release of
the serial handle — the source contains no scoped acquisition, finalizer
or close call — so on every exit path the handle, once acquired, is left
to interpreter/OS teardown rather than released by the program. -/
theorem serial_never_released (initResult : Except PyExc Unit)
    (script : List IterInput) :
    ProcEvent.releaseSerial ∉ (scriptRun initResult script).2 := by
  have hm : (scriptRun initResult script).2 = (mainRun initResult script).2 := by
    rw [scriptRun]
    rcases mainRun initResult script with ⟨ex, tr⟩
    cases ex with
    | returned => rfl
    | running => rfl
    | raised e =>
      by_cases h1 : e = .keyboardInterrupt
      · simp [h1]
      · by_cases h2 : e.isExceptionClass <;> simp [h1, h2]
  rw [hm]
  cases initResult with
  | error e =>
    rw [mainRun]
    by_cases h : e.isExceptionClass <;> simp [h]
  | ok u =>
    simp only [mainRun, List.mem_cons]
    rintro (h | h)
    · cases h
    · exact releaseSerial_not_in_runLoop script h

/-- C9: when opening the serial device raises any `Exception`, `main`
returns normally (after printing the cause and remediation hints), so the
process falls off the end of `__main__` with exit status 0 — the same
exit status as a clean operator-initiated (KeyboardInterrupt) shutdown. -/
theorem init_failure_exit_status (e : PyExc) (h : e.isExceptionClass = true)
    (script : List IterInput) :
    (mainRun (.error e) script).1 = .returned ∧
    (scriptRun (.error e) script).1 = .exitCode 0 ∧
    (scriptRun (.error e) script).1 =
      (scriptRun (.ok ()) [⟨.error .keyboardInterrupt, noResponse⟩]).1 := by
  have h1 : mainRun (.error e) script = (.returned, []) := by
    simp [mainRun, h]
  refine ⟨by simp [h1], by simp [scriptRun, h1], ?_⟩
  have h2 : (scriptRun (.ok ()) [⟨.error .keyboardInterrupt, noResponse⟩]).1 =
      .exitCode 0 := rfl
  rw [h2]
  simp [scriptRun, h1]

/-- Witness for C9: a concrete failed open (a generic `Exception`) with an
empty loop script. -/
theorem init_failure_exit_status_witness :
    (mainRun (.error (.otherExc [])) []).1 = .returned ∧
    (scriptRun (.error (.otherExc [])) []).1 = .exitCode 0 ∧
    (scriptRun (.error (.otherExc [])) []).1 =
      (scriptRun (.ok ()) [⟨.error .keyboardInterrupt, noResponse⟩]).1 :=
  init_failure_exit_status (.otherExc []) rfl []

end Relay
